import Mathlib

/-
Verification of the WorkStamper bot (src/app.py) against its specification.

Shallow embedding conventions:
* The TinyDB token store (`db = TinyDB('user_tokens.json')`) is a list of
  documents; `db.get`, `db.contains`, `db.update`, `db.upsert` keep TinyDB's
  semantics (first match / any match / merge fields into every match /
  update-or-insert).
* Wall-clock instants and calendar days are Nat ordinals (seconds since epoch
  for token timestamps, day number for dates); `datetime.timedelta(days=1)`
  becomes `+ 1`.
* HTTP outcomes are oracle parameters: a failed `requests` call
  (`RequestException`) is `none` / `false`, a parsed 2xx JSON body is
  `some _` / `true`.
* Observable side effects of a handler (Slack chat messages, modal opens and
  updates, freee HR API calls) are collected in an `Effect` list in program
  order; `logging` calls are not user visible and are not modelled.
-/

namespace WorkStamper

/-- One token-store document: the freee token response fields plus the
Slack user id key added in `oauth_callback`. -/
structure Doc where
  slack_user_id : String
  access_token : String
  refresh_token : String
  created_at : Nat
  expires_in : Nat
deriving DecidableEq, Repr

/-- A parsed freee token-endpoint response body (`response.json()`). -/
structure TokenData where
  access_token : String
  refresh_token : String
  created_at : Nat
  expires_in : Nat
deriving DecidableEq, Repr

def userMatches (sid : String) (d : Doc) : Bool :=
  d.slack_user_id == sid

/-- `db.get(UserToken.slack_user_id == sid)`: first matching document. -/
def dbGet (db : List Doc) (sid : String) : Option Doc :=
  db.find? (userMatches sid)

/-- `db.contains(UserToken.slack_user_id == sid)`. -/
def dbContains (db : List Doc) (sid : String) : Bool :=
  db.any (userMatches sid)

/-- TinyDB `update`: merge the response fields into a matching document,
keeping its `slack_user_id` key. -/
def mergeDoc (d : Doc) (td : TokenData) : Doc :=
  { d with access_token := td.access_token, refresh_token := td.refresh_token,
           created_at := td.created_at, expires_in := td.expires_in }

/-- `db.update(new_token_data, UserToken.slack_user_id == sid)`. -/
def dbUpdate (db : List Doc) (td : TokenData) (sid : String) : List Doc :=
  db.map (fun d => if userMatches sid d then mergeDoc d td else d)

/-- A fresh document as inserted by `db.upsert` when no match exists. -/
def newDoc (sid : String) (td : TokenData) : Doc :=
  { slack_user_id := sid, access_token := td.access_token,
    refresh_token := td.refresh_token, created_at := td.created_at,
    expires_in := td.expires_in }

/-- `db.upsert(token_data, UserToken.slack_user_id == sid)`: update the
matching documents if any exist, otherwise insert a new one. -/
def dbUpsert (db : List Doc) (td : TokenData) (sid : String) : List Doc :=
  if dbContains db sid then dbUpdate db td sid else db ++ [newDoc sid td]

/-- Result of `get_freee_token`: the returned value, the token store after
the call, and how many refresh-token exchanges were performed. -/
structure TokenOutcome where
  result : Option String
  db : List Doc
  refreshCalls : Nat
deriving DecidableEq, Repr

/-- `get_freee_token(slack_user_id)` (src/app.py lines 60-78).
`exchange` is the oracle for the POST to the freee token endpoint with
`grant_type=refresh_token`: `none` models a `RequestException`. -/
def get_freee_token (db : List Doc) (slack_user_id : String) (now : Nat)
    (exchange : Option TokenData) : TokenOutcome :=
  match dbGet db slack_user_id with
  | none => ⟨none, db, 0⟩
  | some user_data =>
    if user_data.created_at + user_data.expires_in ≤ now then
      match exchange with
      | some new_token_data =>
        ⟨some new_token_data.access_token, dbUpdate db new_token_data slack_user_id, 1⟩
      | none => ⟨none, db, 1⟩
    else
      ⟨some user_data.access_token, db, 0⟩

/-- Observable side effects of a handler, in program order. -/
inductive Effect where
  | chatMessage (channel : String) (text : String)
  | viewsOpen
  | viewsUpdate (text : String)
  | viewsPush
  | timeClockCall (employee_id : Nat) (clock_type : String)
  | tagUpdateCall (employee_id : Nat) (tag_id : Nat)
  | leavePutCall (employee_id : Nat) (day : Nat)
deriving DecidableEq, Repr

/-- Whether an effect is a call against the freee HR API. -/
def isHrApiCall : Effect → Bool
  | .timeClockCall _ _ => true
  | .tagUpdateCall _ _ => true
  | .leavePutCall _ _ => true
  | _ => false

/-- The authorize URL of `pre_check_authentication` up to `state=`. -/
def auth_url_base (client_id redirect_uri : String) : String :=
  "https://accounts.secure.freee.co.jp/public_api/authorize?client_id=" ++ client_id ++
    "&redirect_uri=" ++ redirect_uri ++ "&response_type=code&state="

/-- The full authorize URL; the `state` query parameter is the Slack user id. -/
def auth_url (client_id redirect_uri sid : String) : String :=
  auth_url_base client_id redirect_uri ++ sid

def msg_link_needed (url : String) : String :=
  "このコマンドを使用するには、まずfreeeアカウントとの連携が必要です。\n" ++ url

def msg_auth_missing : String :=
  "エラー: freeeの認証情報がありません。`/連携`コマンドを実行してください。"

def msg_clock_fail : String :=
  "エラー: freeeへの打刻処理に失敗しました。"

def msg_clock_tag_ok (tag_name : String) : String :=
  "出勤打刻と勤怠タグ「" ++ tag_name ++ "」の設定が完了しました！"

def msg_tag_fail : String :=
  "出勤打刻は完了しましたが、勤怠タグの更新に失敗しました。"

def msg_email_err : String :=
  "エラー: Slackメールアドレス取得不可"

def msg_employee_not_found (email : String) : String :=
  "エラー: freee従業員情報が見つかりません(Email: " ++ email ++ ")"

def msg_leave_types_err : String :=
  "freeeから休暇種別を取得できませんでした。"

def msg_not_implemented : String :=
  "この申請はまだ実装されていません。"

def msg_leave_submitted (leave_type_name start_s end_s : String) : String :=
  "休暇申請をfreeeに提出しました。\n種別：" ++ leave_type_name ++ "\n期間：" ++ start_s ++
    " ~ " ++ end_s ++ "\nfreee上で承認されるのをお待ちください。"

def msg_leave_fail : String :=
  "エラー: freeeへの休暇申請に失敗しました。"

def msg_linked : String :=
  "freeeとの連携が完了しました！"

/-- `pre_check_authentication(user_id, client)` (lines 179-187): returns
whether the user is linked, together with the chat effects it emits. -/
def pre_check_authentication (db : List Doc) (user_id client_id redirect_uri : String) :
    Bool × List Effect :=
  if dbContains db user_id then (true, [])
  else
    (false,
     [Effect.chatMessage user_id (msg_link_needed (auth_url client_id redirect_uri user_id))])

/-- `handle_clock_in_command` (lines 201-206): pre-check, then open the
clock-in modal. No freee HR API call is made by this handler. -/
def handle_clock_in_command (db : List Doc) (user_id client_id redirect_uri : String) :
    List Effect :=
  let pc := pre_check_authentication db user_id client_id redirect_uri
  if pc.1 then pc.2 ++ [Effect.viewsOpen] else pc.2

/-- `get_employee_id_from_slack_id` (lines 168-177). `email` is the oracle
for the Slack profile lookup, `employee_by_email` for the freee employee
search. -/
def get_employee_id_from_slack_id (user_id : String) (email : Option String)
    (employee_by_email : String → Option Nat) : Option Nat × List Effect :=
  match email with
  | none => (none, [Effect.chatMessage user_id msg_email_err])
  | some em =>
    match employee_by_email em with
    | none => (none, [Effect.chatMessage user_id (msg_employee_not_found em)])
    | some employee_id => (some employee_id, [])

/-- `handle_clock_in_submission` (lines 269-295). `clock_ok` and `tag_ok`
are the oracles for `call_freee_time_clock` and
`update_freee_attendance_tag`; the calls themselves appear as effects. -/
def handle_clock_in_submission (db : List Doc) (user_id : String) (tag_id : Nat)
    (tag_name : String) (now : Nat) (exchange : Option TokenData) (email : Option String)
    (employee_by_email : String → Option Nat) (clock_ok tag_ok : Bool) : List Effect :=
  match (get_freee_token db user_id now exchange).result with
  | none => [Effect.chatMessage user_id msg_auth_missing]
  | some _ =>
    match get_employee_id_from_slack_id user_id email employee_by_email with
    | (none, effs) => effs
    | (some employee_id, effs) =>
      if clock_ok then
        effs ++ [Effect.timeClockCall employee_id "clock_in",
                 Effect.tagUpdateCall employee_id tag_id] ++
          (if tag_ok then [Effect.chatMessage user_id (msg_clock_tag_ok tag_name)]
           else [Effect.chatMessage user_id msg_tag_fail])
      else
        effs ++ [Effect.timeClockCall employee_id "clock_in",
                 Effect.chatMessage user_id msg_clock_fail]

/-- `handle_select_application_type` (lines 297-326). When
`get_freee_token` returns no token the handler returns with no effect at
all (lines 309-310); `leave_types` is the oracle for
`get_freee_leave_types`. -/
def handle_select_application_type (db : List Doc) (user_id selected_type : String)
    (now : Nat) (exchange : Option TokenData)
    (leave_types : Option (List (Nat × String))) : List Effect :=
  match (get_freee_token db user_id now exchange).result with
  | none => []
  | some _ =>
    if selected_type == "leave_request" then
      match leave_types with
      | none => [Effect.viewsUpdate msg_leave_types_err]
      | some _ => [Effect.viewsPush]
    else
      [Effect.viewsUpdate msg_not_implemented]

/-- The day-by-day PUT loop of `submit_freee_leave_request`: issue one call
per day, stopping at the first failure; returns the days for which a call
was issued and the overall result. -/
def leaveLoop (putOk : Nat → Bool) : List Nat → List Nat × Bool
  | [] => ([], true)
  | day :: rest =>
    if putOk day then
      let r := leaveLoop putOk rest
      (day :: r.1, r.2)
    else
      ([day], false)

/-- `submit_freee_leave_request` (lines 148-163): `while current <= end`
over calendar days; `putOk day` is the oracle for the PUT to
`work_records/{day}`. -/
def submit_freee_leave_request (start_date end_date : Nat) (putOk : Nat → Bool) :
    List Nat × Bool :=
  leaveLoop putOk (List.range' start_date (end_date + 1 - start_date))

/-- `handle_submit_leave_request` (lines 328-349): the issued PUT calls as
effects, then the success or failure chat message. -/
def handle_submit_leave_request (db : List Doc) (user_id : String) (employee_id : Nat)
    (leave_type_name : String) (start_date end_date now : Nat)
    (exchange : Option TokenData) (putOk : Nat → Bool) : List Effect :=
  match (get_freee_token db user_id now exchange).result with
  | none => [Effect.chatMessage user_id msg_auth_missing]
  | some _ =>
    let r := submit_freee_leave_request start_date end_date putOk
    r.1.map (Effect.leavePutCall employee_id) ++
      (if r.2 then
        [Effect.chatMessage user_id
          (msg_leave_submitted leave_type_name (toString start_date) (toString end_date))]
       else [Effect.chatMessage user_id msg_leave_fail])

/-- `oauth_callback` (lines 359-379): `token_data` is the oracle for the
authorization-code exchange; on a body containing an access token the
record is upserted and the user notified. -/
def oauth_callback (db : List Doc) (slack_user_id : String)
    (token_data : Option TokenData) : List Doc × List Effect :=
  match token_data with
  | some td => (dbUpsert db td slack_user_id, [Effect.chatMessage slack_user_id msg_linked])
  | none => (db, [])

/-- Modelled from the spec: calendar event creation is not present in
src/app.py (only the Google credential helper `get_google_credentials`
is); spec §4.2 says the event is all-day from the start date through the
end date inclusive, with the end boundary passed to the calendar API one
day past the nominal end date (exclusive convention). Days are ordinal day
numbers. -/
structure CalendarEvent where
  start_day : Nat
  end_day_exclusive : Nat
deriving DecidableEq, Repr

/-- Modelled from the spec: the event created for nominal range
[start_date, end_date]. -/
def create_calendar_event (start_date end_date : Nat) : CalendarEvent :=
  { start_day := start_date, end_day_exclusive := end_date + 1 }

/-- A day is covered by an event under the exclusive-end convention. -/
def eventCoversDay (ev : CalendarEvent) (day : Nat) : Prop :=
  ev.start_day ≤ day ∧ day < ev.end_day_exclusive

instance (ev : CalendarEvent) (day : Nat) : Decidable (eventCoversDay ev day) :=
  inferInstanceAs (Decidable (_ ∧ _))

/-- The token-store invariant: at most one document per Slack user id. -/
def atMostOnePerUser (db : List Doc) : Prop :=
  db.Pairwise (fun a b => a.slack_user_id ≠ b.slack_user_id)

instance (db : List Doc) : Decidable (atMostOnePerUser db) :=
  inferInstanceAs (Decidable (List.Pairwise _ db))

/-- Concrete store document used to instantiate the theorems. -/
def exDoc : Doc :=
  { slack_user_id := "U1", access_token := "a0", refresh_token := "r0",
    created_at := 0, expires_in := 10 }

/-- Concrete token-endpoint response used to instantiate the theorems. -/
def exToken : TokenData :=
  { access_token := "a1", refresh_token := "r1", created_at := 100, expires_in := 3600 }

/-- `dbUpdate` rewrites a document's token fields but keeps its key. -/
theorem updDoc_slack_user_id (sid : String) (td : TokenData) (x : Doc) :
    (if userMatches sid x then mergeDoc x td else x).slack_user_id = x.slack_user_id := by
  by_cases h : userMatches sid x <;> simp [h, mergeDoc]

/-- The first matching document after `dbUpdate` is the merged one. -/
theorem dbUpdate_find (db : List Doc) (sid : String) (td : TokenData) (d : Doc)
    (h : dbGet db sid = some d) :
    dbGet (dbUpdate db td sid) sid = some (mergeDoc d td) := by
  induction db with
  | nil => simp [dbGet] at h
  | cons a l ih =>
    by_cases ha : userMatches sid a
    · have hda : d = a := by
        have h2 : a = d := by simpa [dbGet, List.find?_cons_of_pos _ ha] using h
        exact h2.symm
      subst hda
      have hm : userMatches sid (mergeDoc d td) = true := by
        simpa [userMatches, mergeDoc] using ha
      simp [dbGet, dbUpdate, ha, List.find?_cons_of_pos _ hm]
    · have hl : dbGet l sid = some d := by
        simpa [dbGet, List.find?_cons_of_neg _ ha] using h
      have hm : userMatches sid a = false := by simpa using ha
      have := ih hl
      simpa [dbGet, dbUpdate, hm, List.find?_cons_of_neg] using this

/-- `dbUpdate` preserves the at-most-one-document-per-user invariant. -/
theorem atMostOne_dbUpdate (db : List Doc) (td : TokenData) (sid : String)
    (h : atMostOnePerUser db) : atMostOnePerUser (dbUpdate db td sid) := by
  unfold atMostOnePerUser dbUpdate
  rw [List.pairwise_map]
  refine h.imp ?_
  intro a b hab
  rw [updDoc_slack_user_id, updDoc_slack_user_id]
  exact hab

/-- `dbUpsert` preserves the at-most-one-document-per-user invariant. -/
theorem atMostOne_dbUpsert (db : List Doc) (td : TokenData) (sid : String)
    (h : atMostOnePerUser db) : atMostOnePerUser (dbUpsert db td sid) := by
  unfold dbUpsert
  by_cases hc : dbContains db sid
  · simpa [hc] using atMostOne_dbUpdate db td sid h
  · rw [if_neg hc]
    unfold atMostOnePerUser
    rw [List.pairwise_append]
    refine ⟨h, List.pairwise_singleton _ _, ?_⟩
    intro a ha b hb
    have hb' : b = newDoc sid td := by simpa using hb
    subst hb'
    have hna : userMatches sid a = false := by
      have := (List.any_eq_true.not).mp (by simpa [dbContains] using hc)
      push_neg at this
      have h2 := this a ha
      simpa using h2
    have : a.slack_user_id ≠ sid := by simpa [userMatches] using hna
    simpa [newDoc] using this

/-- The PUT loop succeeds and visits every day when every call succeeds. -/
theorem leaveLoop_all_ok (putOk : Nat → Bool) (days : List Nat)
    (h : ∀ d ∈ days, putOk d = true) : leaveLoop putOk days = (days, true) := by
  induction days with
  | nil => rfl
  | cons a l ih =>
    have ha : putOk a = true := h a (by simp)
    have hl := ih (fun d hd => h d (by simp [hd]))
    simp [leaveLoop, ha, hl]

/-- The PUT loop stops at the first failing day, having issued exactly the
calls for the days up to and including it. -/
theorem leaveLoop_first_fail (putOk : Nat → Bool) (pre : List Nat) (k : Nat)
    (post : List Nat) (hpre : ∀ d ∈ pre, putOk d = true) (hk : putOk k = false) :
    leaveLoop putOk (pre ++ k :: post) = (pre ++ [k], false) := by
  induction pre with
  | nil => simp [leaveLoop, hk]
  | cons a l ih =>
    have ha : putOk a = true := hpre a (by simp)
    have hl := ih (fun d hd => hpre d (by simp [hd]))
    simp [leaveLoop, ha, hl]

/-- The partial-failure message differs from every total-success message:
they already differ at the fifth character (は vs と). -/
theorem msg_tag_fail_ne_clock_tag_ok (tag_name : String) :
    msg_tag_fail ≠ msg_clock_tag_ok tag_name := by
  intro h
  have hd : msg_tag_fail.data = (msg_clock_tag_ok tag_name).data := by rw [h]
  rw [msg_clock_tag_ok, msg_tag_fail, String.data_append, String.data_append] at hd
  have h4 := congrArg (fun l => l[4]?) hd
  simp only at h4
  rw [List.getElem?_append_left
        (by simp only [List.length_append, List.length_cons, List.length_nil]; omega),
      List.getElem?_append_left (by decide)] at h4
  exact absurd h4 (by decide)

/-- Claim C1 counterexample: for the subject identifier U1 with a stored,
expired token record, a failed refresh exchange makes `get_freee_token`
return `none` — exactly the value returned when no record exists at all —
so the two cases are not distinguishable from the returned value. -/
theorem C1_counterexample :
    (get_freee_token [exDoc] "U1" 100 none).result = none ∧
    (get_freee_token ([] : List Doc) "U1" 100 none).result = none ∧
    (get_freee_token [exDoc] "U1" 100 none).result =
      (get_freee_token ([] : List Doc) "U1" 100 none).result := by
  decide

/-- Claim C1 (amended): when the refresh exchange fails for a stored,
expired record, `get_freee_token` returns `None`, the same value as the
"not linked" outcome for an absent record; the returned value does not
distinguish the two cases, and linkage is instead distinguished by the
store pre-check (`pre_check_authentication` returns the store-membership
bit). -/
theorem C1_refresh_failure_indistinct (db : List Doc) (sid : String) (now : Nat)
    (d : Doc) (hfind : dbGet db sid = some d)
    (hexp : d.created_at + d.expires_in ≤ now) :
    (get_freee_token db sid now none).result = none ∧
    (∀ db2 : List Doc, dbGet db2 sid = none →
      (get_freee_token db2 sid now none).result = none) ∧
    (∀ (db3 : List Doc) (cid ruri : String),
      (pre_check_authentication db3 sid cid ruri).1 = dbContains db3 sid) := by
  refine ⟨?_, ?_, ?_⟩
  · unfold get_freee_token
    rw [hfind]
    simp [hexp]
  · intro db2 h2
    unfold get_freee_token
    rw [h2]
  · intro db3 cid ruri
    unfold pre_check_authentication
    by_cases h3 : dbContains db3 sid <;> simp [h3]

/-- Claim C1 witness: the amended statement instantiated at the concrete
expired record. -/
theorem C1_refresh_failure_indistinct_witness :
    (get_freee_token [exDoc] "U1" 100 none).result = none :=
  (C1_refresh_failure_indistinct [exDoc] "U1" 100 exDoc (by decide) (by decide)).1

/-- Claim C2: evaluation of the code at the failing input. For the user U1
whose stored token is expired and whose refresh exchange fails,
`get_freee_token` yields no token, and `handle_select_application_type`
then produces no effect at all — in particular no user-visible chat
message — contradicting the spec's rule that every error path ends in a
user-visible chat message. -/
theorem C2_silent_error_path :
    handle_select_application_type [exDoc] "U1" "leave_request" 100 none (some []) =
      [] ∧
    (get_freee_token [exDoc] "U1" 100 none).result = none := by
  decide

/-- Claim C3: for the nominal range [start_date, end_date], the created
calendar event starts at the start date and carries the exclusive end
boundary end_date + 1, and under the exclusive convention it covers
exactly the days from start_date through end_date inclusive. -/
theorem C3_calendar_end_exclusive (start_date end_date : Nat) :
    (create_calendar_event start_date end_date).end_day_exclusive = end_date + 1 ∧
    (create_calendar_event start_date end_date).start_day = start_date ∧
    ∀ day, eventCoversDay (create_calendar_event start_date end_date) day ↔
      (start_date ≤ day ∧ day ≤ end_date) := by
  refine ⟨rfl, rfl, fun day => ?_⟩
  simp only [eventCoversDay, create_calendar_event]
  omega

/-- Claim C3 witness: the spec's example with day ordinals — start day 121,
end day 123 (2024-05-01 through 2024-05-03) gives upstream end boundary
124 (2024-05-04), and the nominal end day 123 is still covered. -/
theorem C3_calendar_end_exclusive_witness :
    (create_calendar_event 121 123).end_day_exclusive = 124 ∧
    eventCoversDay (create_calendar_event 121 123) 123 :=
  ⟨(C3_calendar_end_exclusive 121 123).1,
   ((C3_calendar_end_exclusive 121 123).2.2 123).mpr (by decide)⟩

/-- Claim C6: for a stored record that is not yet expired
(now < created_at + expires_in), `get_freee_token` performs no refresh
exchange, leaves the store unchanged, and returns the stored access
token. -/
theorem C6_unexpired_no_refresh (db : List Doc) (sid : String) (now : Nat)
    (exchange : Option TokenData) (d : Doc) (hfind : dbGet db sid = some d)
    (hlive : now < d.created_at + d.expires_in) :
    get_freee_token db sid now exchange = ⟨some d.access_token, db, 0⟩ := by
  unfold get_freee_token
  rw [hfind]
  simp [Nat.not_le.mpr hlive]

/-- Claim C6 witness: at time 5 the concrete record (issued at 0, lifetime
10) is still live, so the stored token is returned with no refresh and an
unchanged store. -/
theorem C6_unexpired_no_refresh_witness :
    get_freee_token [exDoc] "U1" 5 none = ⟨some "a0", [exDoc], 0⟩ :=
  C6_unexpired_no_refresh [exDoc] "U1" 5 none exDoc (by decide) (by decide)

/-- Claim C4: for a stored record whose expiry has passed
(created_at + expires_in ≤ now), `get_freee_token` performs exactly one
refresh exchange whatever its outcome; when the exchange succeeds with a
response stamped at the refresh time, the new access token is returned
and the record stored for the subject identifier is the old one with the
response's fields merged in, so its issuance timestamp is the refresh
time. -/
theorem C4_expired_refresh (db : List Doc) (sid : String) (now : Nat) (d : Doc)
    (hfind : dbGet db sid = some d) (hexp : d.created_at + d.expires_in ≤ now) :
    (∀ exchange, (get_freee_token db sid now exchange).refreshCalls = 1) ∧
    (∀ td : TokenData, td.created_at = now →
      (get_freee_token db sid now (some td)).result = some td.access_token ∧
      dbGet (get_freee_token db sid now (some td)).db sid = some (mergeDoc d td) ∧
      (mergeDoc d td).created_at = now) := by
  constructor
  · intro exchange
    unfold get_freee_token
    rw [hfind]
    cases exchange <;> simp [hexp]
  · intro td hstamp
    refine ⟨?_, ?_, ?_⟩
    · unfold get_freee_token
      rw [hfind]
      simp [hexp]
    · have h1 : (get_freee_token db sid now (some td)).db = dbUpdate db td sid := by
        unfold get_freee_token
        rw [hfind]
        simp [hexp]
      rw [h1]
      exact dbUpdate_find db sid td d hfind
    · simp [mergeDoc, hstamp]

/-- Claim C4 witness: the expired concrete record is refreshed once, the
new access token is returned, and the stored issuance timestamp is the
refresh time 100. -/
theorem C4_expired_refresh_witness :
    (get_freee_token [exDoc] "U1" 100 (some exToken)).refreshCalls = 1 ∧
    (get_freee_token [exDoc] "U1" 100 (some exToken)).result = some "a1" ∧
    (mergeDoc exDoc exToken).created_at = 100 :=
  ⟨(C4_expired_refresh [exDoc] "U1" 100 exDoc (by decide) (by decide)).1 (some exToken),
   ((C4_expired_refresh [exDoc] "U1" 100 exDoc (by decide) (by decide)).2 exToken rfl).1,
   ((C4_expired_refresh [exDoc] "U1" 100 exDoc (by decide) (by decide)).2 exToken rfl).2.2⟩

/-- Claim C5: for start_date ≤ end_date, when every per-day PUT succeeds
the leave submission issues exactly (end_date − start_date + 1) calls, one
per calendar day inclusive, and reports success; when the call for day k
is the first to fail, the operation reports failure having issued exactly
the calls for days start_date through k — the days before k were already
issued, day k's failing call was issued, and no day after k is called. -/
theorem C5_leave_day_calls (start_date end_date : Nat) (putOk : Nat → Bool)
    (hle : start_date ≤ end_date) :
    ((∀ d, start_date ≤ d → d ≤ end_date → putOk d = true) →
      submit_freee_leave_request start_date end_date putOk =
        (List.range' start_date (end_date - start_date + 1), true) ∧
      (submit_freee_leave_request start_date end_date putOk).1.length =
        end_date - start_date + 1) ∧
    (∀ k, start_date ≤ k → k ≤ end_date → putOk k = false →
      (∀ d, start_date ≤ d → d < k → putOk d = true) →
      submit_freee_leave_request start_date end_date putOk =
        (List.range' start_date (k - start_date + 1), false)) := by
  constructor
  · intro hall
    have hmem : ∀ d ∈ List.range' start_date (end_date - start_date + 1),
        putOk d = true := by
      intro d hd
      rw [List.mem_range'_1] at hd
      exact hall d hd.1 (by omega)
    have hloop := leaveLoop_all_ok putOk _ hmem
    have hsub : submit_freee_leave_request start_date end_date putOk =
        (List.range' start_date (end_date - start_date + 1), true) := by
      unfold submit_freee_leave_request
      rw [show end_date + 1 - start_date = end_date - start_date + 1 by omega]
      exact hloop
    refine ⟨hsub, ?_⟩
    rw [hsub]
    simp
  · intro k hk1 hk2 hkf hall
    have happ := List.range'_append start_date (k - start_date) (end_date - k + 1) 1
    rw [show start_date + 1 * (k - start_date) = k by omega] at happ
    have hsucc : List.range' k (end_date - k + 1) =
        k :: List.range' (k + 1) (end_date - k) :=
      List.range'_succ k (end_date - k) 1
    have hmain : List.range' start_date (end_date + 1 - start_date) =
        List.range' start_date (k - start_date) ++
          k :: List.range' (k + 1) (end_date - k) := by
      rw [show end_date + 1 - start_date = end_date - k + 1 + (k - start_date) by omega,
          ← happ, hsucc]
    have hpre : ∀ d ∈ List.range' start_date (k - start_date), putOk d = true := by
      intro d hd
      rw [List.mem_range'_1] at hd
      exact hall d hd.1 (by omega)
    have hloop := leaveLoop_first_fail putOk (List.range' start_date (k - start_date)) k
      (List.range' (k + 1) (end_date - k)) hpre hkf
    have hfin : List.range' start_date (k - start_date) ++ [k] =
        List.range' start_date (k - start_date + 1) := by
      have happ2 := List.range'_append start_date (k - start_date) 1 1
      rw [show start_date + 1 * (k - start_date) = k by omega] at happ2
      rw [show (1 : Nat) + (k - start_date) = k - start_date + 1 by omega] at happ2
      simpa using happ2
    unfold submit_freee_leave_request
    rw [hmain, hloop, hfin]

/-- Claim C5 witness: over the range [0, 2] with day 1 failing, the calls
issued are exactly for days 0 and 1 and the operation reports failure. -/
theorem C5_leave_day_calls_witness :
    submit_freee_leave_request 0 2 (fun d => decide (d < 1)) = ([0, 1], false) := by
  have h := (C5_leave_day_calls 0 2 (fun d => decide (d < 1)) (by decide)).2 1
    (by decide) (by decide) (by decide)
    (fun d _ h2 => decide_eq_true h2)
  simpa using h

/-- Claim C7: for a subject identifier with no stored record, the
authentication pre-check returns the "not linked" outcome (False), the
clock-in command's only effect is one chat message carrying the
authorization URL whose state query parameter (its final component) is
the subject identifier, no freee HR API call is made, and no modal is
opened. -/
theorem C7_not_linked_precheck (db : List Doc) (user_id client_id redirect_uri : String)
    (h : dbContains db user_id = false) :
    (pre_check_authentication db user_id client_id redirect_uri).1 = false ∧
    handle_clock_in_command db user_id client_id redirect_uri =
      [Effect.chatMessage user_id
        (msg_link_needed (auth_url_base client_id redirect_uri ++ user_id))] ∧
    (∀ e ∈ handle_clock_in_command db user_id client_id redirect_uri,
      isHrApiCall e = false) ∧
    (∀ e ∈ handle_clock_in_command db user_id client_id redirect_uri,
      e ≠ Effect.viewsOpen) := by
  have hpc : pre_check_authentication db user_id client_id redirect_uri =
      (false, [Effect.chatMessage user_id
        (msg_link_needed (auth_url client_id redirect_uri user_id))]) := by
    unfold pre_check_authentication
    simp [h]
  have hcmd : handle_clock_in_command db user_id client_id redirect_uri =
      [Effect.chatMessage user_id
        (msg_link_needed (auth_url client_id redirect_uri user_id))] := by
    unfold handle_clock_in_command
    rw [hpc]
    simp
  refine ⟨by rw [hpc], by rw [hcmd]; rfl, ?_, ?_⟩
  · intro e he
    rw [hcmd] at he
    have he' : e = Effect.chatMessage user_id
        (msg_link_needed (auth_url client_id redirect_uri user_id)) := by simpa using he
    subst he'
    rfl
  · intro e he
    rw [hcmd] at he
    have he' : e = Effect.chatMessage user_id
        (msg_link_needed (auth_url client_id redirect_uri user_id)) := by simpa using he
    subst he'
    simp

/-- Claim C7 witness: an unlinked user on an empty store receives exactly
the link prompt with their own id as the state parameter. -/
theorem C7_not_linked_precheck_witness :
    handle_clock_in_command [] "U9" "cid123" "https://example.com/cb" =
      [Effect.chatMessage "U9"
        (msg_link_needed (auth_url_base "cid123" "https://example.com/cb" ++ "U9"))] :=
  (C7_not_linked_precheck [] "U9" "cid123" "https://example.com/cb" (by decide)).2.1

/-- Claim C8: in the clock-in modal submission, when a token is available,
the employee resolves, the time-clock call succeeds and the tag update
fails, the user receives exactly the partial-outcome message (clock-in
completed, tag update failed), which differs from every total-success
message and from the total-failure message. -/
theorem C8_partial_failure_report (db : List Doc) (user_id : String) (tag_id : Nat)
    (tag_name : String) (now : Nat) (exchange : Option TokenData) (em : String)
    (employee_by_email : String → Option Nat) (employee_id : Nat) (tok : String)
    (htok : (get_freee_token db user_id now exchange).result = some tok)
    (hemp : employee_by_email em = some employee_id) :
    handle_clock_in_submission db user_id tag_id tag_name now exchange (some em)
        employee_by_email true false =
      [Effect.timeClockCall employee_id "clock_in",
       Effect.tagUpdateCall employee_id tag_id,
       Effect.chatMessage user_id msg_tag_fail] ∧
    msg_tag_fail ≠ msg_clock_tag_ok tag_name ∧
    msg_tag_fail ≠ msg_clock_fail := by
  refine ⟨?_, msg_tag_fail_ne_clock_tag_ok tag_name, by decide⟩
  unfold handle_clock_in_submission get_employee_id_from_slack_id
  rw [htok]
  simp [hemp]

/-- Claim C8 witness: the partial-failure scenario instantiated with the
live concrete record and a resolving employee lookup. -/
theorem C8_partial_failure_report_witness :
    handle_clock_in_submission [exDoc] "U1" 13548 "在宅勤務" 5 none
        (some "u1@example.com") (fun _ => some 42) true false =
      [Effect.timeClockCall 42 "clock_in", Effect.tagUpdateCall 42 13548,
       Effect.chatMessage "U1" msg_tag_fail] :=
  (C8_partial_failure_report [exDoc] "U1" 13548 "在宅勤務" 5 none "u1@example.com"
      (fun _ => some 42) 42 "a0" (by decide) rfl).1

/-- Claim C9: the token store holds at most one record per subject
identifier: the invariant holds for the initial empty store and is
preserved both by the OAuth-callback upsert and by the Credential
Refresher's update, so repeating the linking flow for the same subject
identifier never produces two records for it. -/
theorem C9_token_store_unique :
    atMostOnePerUser ([] : List Doc) ∧
    (∀ (db : List Doc) (sid : String) (token_data : Option TokenData),
      atMostOnePerUser db → atMostOnePerUser (oauth_callback db sid token_data).1) ∧
    (∀ (db : List Doc) (sid : String) (now : Nat) (exchange : Option TokenData),
      atMostOnePerUser db → atMostOnePerUser (get_freee_token db sid now exchange).db) := by
  refine ⟨List.Pairwise.nil, ?_, ?_⟩
  · intro db sid token_data h
    cases token_data with
    | none => exact h
    | some td => exact atMostOne_dbUpsert db td sid h
  · intro db sid now exchange h
    unfold get_freee_token
    cases hg : dbGet db sid with
    | none => exact h
    | some d =>
      by_cases he : d.created_at + d.expires_in ≤ now
      · cases exchange with
        | none => simpa [he] using h
        | some td => simpa [he] using atMostOne_dbUpdate db td sid h
      · simpa [he] using h

/-- Claim C9 witness: re-linking the already linked user U1, linking a new
user U2, and a refresher update all keep the store free of duplicate
records. -/
theorem C9_token_store_unique_witness :
    atMostOnePerUser (oauth_callback [exDoc] "U1" (some exToken)).1 ∧
    atMostOnePerUser (oauth_callback [exDoc] "U2" (some exToken)).1 ∧
    atMostOnePerUser (get_freee_token [exDoc] "U1" 100 (some exToken)).db :=
  ⟨C9_token_store_unique.2.1 [exDoc] "U1" (some exToken) (by decide),
   C9_token_store_unique.2.1 [exDoc] "U2" (some exToken) (by decide),
   C9_token_store_unique.2.2 [exDoc] "U1" 100 (some exToken) (by decide)⟩

/-- Claim C10: for an inverted range (end_date < start_date) the leave
submission issues zero per-day calls and returns success, so with a valid
token the handler reports the leave request to the user as successfully
submitted. -/
theorem C10_inverted_range_success (start_date end_date : Nat) (putOk : Nat → Bool)
    (hinv : end_date < start_date) (db : List Doc) (user_id : String) (employee_id : Nat)
    (leave_type_name : String) (now : Nat) (exchange : Option TokenData) (tok : String)
    (htok : (get_freee_token db user_id now exchange).result = some tok) :
    submit_freee_leave_request start_date end_date putOk = ([], true) ∧
    handle_submit_leave_request db user_id employee_id leave_type_name start_date end_date
        now exchange putOk =
      [Effect.chatMessage user_id
        (msg_leave_submitted leave_type_name (toString start_date) (toString end_date))] := by
  have hsub : submit_freee_leave_request start_date end_date putOk = ([], true) := by
    unfold submit_freee_leave_request
    rw [show end_date + 1 - start_date = 0 by omega]
    rfl
  refine ⟨hsub, ?_⟩
  unfold handle_submit_leave_request
  rw [htok]
  simp only [hsub]
  simp

/-- Claim C10 witness: the inverted range [5, 3] yields zero PUT calls and
a success message to the user. -/
theorem C10_inverted_range_success_witness :
    handle_submit_leave_request [exDoc] "U1" 7 "有給休暇" 5 3 5 none (fun _ => true) =
      [Effect.chatMessage "U1"
        (msg_leave_submitted "有給休暇" (toString (5 : Nat)) (toString (3 : Nat)))] :=
  (C10_inverted_range_success 5 3 (fun _ => true) (by decide) [exDoc] "U1" 7 "有給休暇" 5
      none "a0" (by decide)).2

end WorkStamper
